import Mathlib

/-!
Shallow embedding of a two-channel temperature-detection station
(`temperature_station.py` and `real_temperature_sensor.py`).

Modelling conventions:
* Python floats are modelled as exact rationals (`ℚ`).
* Python `None` / absent values are modelled by `Option`.
* A `datetime` instant is modelled as a broken-down calendar record; its
  `strftime` with format `%Y-%m-%d %H:%M:%S` is modelled by an explicit
  zero-padded formatter.
* Serial / Modbus I/O is modelled by an environment record `ModbusEnv`
  giving the outcome of opening the port and of each register read for
  the current attempt; exceptions are `Except.error` carrying the message.
* The background thread is modelled by running the body of one iteration
  of `_detection_loop` (`detection_cycle`) an arbitrary number of times;
  the per-cycle random draws `uniform(-5,8)` / `uniform(-4,7)` are inputs.
* Dynamically-typed Python status-dict entries that can be `None` in some
  code path (or per the spec) are modelled as `Option` values, with a
  Python bool `b` embedded as `some b` and `None` as `none`.
-/

namespace TempDetect

/-- Broken-down wall-clock instant, the part of a Python `datetime` that the
program observes (`datetime.now()` capture and `strftime`). -/
structure Datetime where
  year : ℕ
  month : ℕ
  day : ℕ
  hour : ℕ
  minute : ℕ
  second : ℕ
deriving DecidableEq

/-- Zero-pad a numeric field to two digits, as `strftime` does for
`%m %d %H %M %S`. -/
def pad2 (n : ℕ) : String :=
  if n < 10 then "0" ++ toString n else toString n

/-- Zero-pad the year to four digits, as `strftime` does for `%Y`. -/
def pad4 (n : ℕ) : String :=
  if n < 10 then "000" ++ toString n
  else if n < 100 then "00" ++ toString n
  else if n < 1000 then "0" ++ toString n
  else toString n

/-- `timestamp.strftime('%Y-%m-%d %H:%M:%S')`. -/
def Datetime.strftimeYmdHMS (d : Datetime) : String :=
  pad4 d.year ++ "-" ++ pad2 d.month ++ "-" ++ pad2 d.day ++ " " ++
  pad2 d.hour ++ ":" ++ pad2 d.minute ++ ":" ++ pad2 d.second

/-- Python `round` to an integer: round half to even (banker's rounding). -/
def pyRoundHalfEven (q : ℚ) : ℤ :=
  let f : ℤ := ⌊q⌋
  if q - f < 1/2 then f
  else if (1:ℚ)/2 < q - f then f + 1
  else if f % 2 = 0 then f else f + 1

/-- Python `round(x, 2)`: round to two decimal places, half to even. -/
def round2 (q : ℚ) : ℚ := (pyRoundHalfEven (q * 100) : ℚ) / 100

/-- One entry of `temperature_history`: the dict
`{'timestamp': ..., 'channel1_temperature': ..., 'channel2_temperature': ...}`. -/
structure Reading where
  timestamp : Datetime
  channel1_temperature : ℚ
  channel2_temperature : ℚ
deriving DecidableEq

/-- The dict `self.current_temperatures = {'channel1': ..., 'channel2': ...}`,
each entry a float or `None`. -/
structure CurrentTemps where
  channel1 : Option ℚ
  channel2 : Option ℚ
deriving DecidableEq

/-- Outcome of the serial/Modbus world for one polling attempt.  Every
primitive serial operation consumes one tick of a per-cycle call clock, so
the outcomes of successive calls are independent — in particular a register
read may fail transiently and the next attempt at the same register succeed,
as on a real flaky serial line.  `connect k` is the result of constructing
`minimalmodbus.Instrument` and configuring the serial line on the cycle's
`k`-th primitive call; `readReg k a` is the result of
`read_register(registeraddress=a, number_of_decimals=1, functioncode=3,
signed=True)` at register address `a` on the `k`-th primitive call.  An
`Except.error` is a raised exception, carrying `str(e)`. -/
structure ModbusEnv where
  connect : ℕ → Except String Unit
  readReg : ℕ → ℕ → Except String ℚ

/-- Mutable state of `RealTemperatureSensor`.  `instrument` records whether
`self.instrument` is an object (`true`) or `None` (`false`). -/
structure Sensor where
  com_port : String
  slave_address : ℤ
  baudrate : ℤ
  timeout : ℚ
  instrument : Bool
  is_connected : Bool
  last_error : Option String
deriving DecidableEq

/-- `RealTemperatureSensor.__init__`. -/
def Sensor.init (com_port : String) (slave_address : ℤ) (baudrate : ℤ)
    (timeout : ℚ) : Sensor :=
  { com_port := com_port
    slave_address := slave_address
    baudrate := baudrate
    timeout := timeout
    instrument := false
    is_connected := false
    last_error := none }

/-- Result of `setup_sensor`: the advanced call clock, the updated sensor
state, and the returned boolean. -/
structure SetupResult where
  clock : ℕ
  sensor : Sensor
  ok : Bool
deriving DecidableEq

/-- Result of `read_temperature`: the advanced call clock, the updated
sensor state, and the returned temperature (`None` on failure). -/
structure ReadResult where
  clock : ℕ
  sensor : Sensor
  value : Option ℚ
deriving DecidableEq

/-- Result of `read_all_temperatures`: the advanced call clock, the final
sensor state, and the returned channel dict. -/
structure ReadAllResult where
  clock : ℕ
  sensor : Sensor
  channel1 : Option ℚ
  channel2 : Option ℚ
deriving DecidableEq

/-- `RealTemperatureSensor.setup_sensor`, starting at call clock `t`:
construct and configure the instrument (one primitive call), then test the
connection by reading register 0 (a second primitive call).  Returns the
advanced clock, the updated sensor state and the boolean result. -/
def setup_sensor (env : ModbusEnv) (t : ℕ) (s : Sensor) : SetupResult :=
  match env.connect t with
  | Except.error e =>
      { clock := t + 1
        sensor := { s with is_connected := false, last_error := some e }
        ok := false }
  | Except.ok _ =>
      let s1 := { s with instrument := true }
      match env.readReg (t + 1) 0 with
      | Except.error e =>
          { clock := t + 2
            sensor := { s1 with is_connected := false, last_error := some e }
            ok := false }
      | Except.ok _ =>
          { clock := t + 2
            sensor := { s1 with is_connected := true, last_error := none }
            ok := true }

/-- The `try` body of `read_temperature` once a connection is in hand:
read register `channel - 1` (one primitive call); on success clear
`last_error` and return the value, on exception record the message, mark
disconnected and return `None`. -/
def readAttempt (env : ModbusEnv) (t : ℕ) (s : Sensor) (channel : ℕ) :
    ReadResult :=
  let register_address := channel - 1
  match env.readReg t register_address with
  | Except.ok v =>
      { clock := t + 1, sensor := { s with last_error := none }, value := some v }
  | Except.error e =>
      { clock := t + 1
        sensor := { s with last_error := some e, is_connected := false }
        value := none }

/-- `RealTemperatureSensor.read_temperature(channel)`, starting at call
clock `t`. -/
def read_temperature (env : ModbusEnv) (t : ℕ) (s : Sensor) (channel : ℕ) :
    ReadResult :=
  if s.is_connected = false ∨ s.instrument = false then
    let su := setup_sensor env t s
    if su.ok then readAttempt env su.clock su.sensor channel
    else { clock := su.clock, sensor := su.sensor, value := none }
  else
    readAttempt env t s channel

/-- `RealTemperatureSensor.read_all_temperatures`: read channel 1 then
channel 2, threading the call clock and the sensor state; a channel-1
failure leaves the sensor disconnected, so the channel-2 call re-runs
`setup_sensor` — which may succeed, reconnecting mid-cycle. -/
def read_all_temperatures (env : ModbusEnv) (t : ℕ) (s : Sensor) :
    ReadAllResult :=
  let r1 := read_temperature env t s 1
  let r2 := read_temperature env r1.clock r1.sensor 2
  { clock := r2.clock, sensor := r2.sensor,
    channel1 := r1.value, channel2 := r2.value }

/-- The dict returned by `RealTemperatureSensor.get_status`. -/
structure SensorStatus where
  is_connected : Bool
  com_port : String
  slave_address : ℤ
  last_error : Option String
deriving DecidableEq

/-- `RealTemperatureSensor.get_status`. -/
def Sensor.get_status (s : Sensor) : SensorStatus :=
  { is_connected := s.is_connected
    com_port := s.com_port
    slave_address := s.slave_address
    last_error := s.last_error }

/-- `RealTemperatureSensor.disconnect`: close the serial handle (tolerating
failures), reset `is_connected` and drop the instrument. -/
def Sensor.disconnect (s : Sensor) : Sensor :=
  { s with is_connected := false, instrument := false }

/-- Mutable state of `TemperatureStation`.  `threads_spawned` counts the
`threading.Thread(...).start()` calls made by `start_detection`, so that
spawning (or not spawning) a polling task is observable in the model. -/
structure Station where
  station_id : ℤ
  name : String
  threshold_difference : ℚ
  use_real_sensor : Bool
  is_running : Bool
  threads_spawned : ℕ
  current_temperatures : CurrentTemps
  temperature_history : List Reading
  real_sensor : Option Sensor
  sensor_connection_error : Option String
deriving DecidableEq

/-- `TemperatureStation.__init__`; when `use_real_sensor` is set it builds a
`RealTemperatureSensor` and attempts `setup_sensor` against `env`, recording
`last_error` as `sensor_connection_error` on failure. -/
def Station.init (env : ModbusEnv) (station_id : ℤ) (name : String)
    (threshold_difference : ℚ) (use_real_sensor : Bool) (com_port : String) :
    Station :=
  let base : Station :=
    { station_id := station_id
      name := name
      threshold_difference := threshold_difference
      use_real_sensor := use_real_sensor
      is_running := false
      threads_spawned := 0
      current_temperatures := { channel1 := none, channel2 := none }
      temperature_history := []
      real_sensor := none
      sensor_connection_error := none }
  if use_real_sensor then
    let r := setup_sensor env 0 (Sensor.init com_port 1 9600 1)
    { base with
        real_sensor := some r.sensor
        sensor_connection_error := if r.ok then none else r.sensor.last_error }
  else
    base

/-- `TemperatureStation.start_detection`. -/
def start_detection (st : Station) : Station :=
  if st.is_running then st
  else
    { st with
        temperature_history := []
        current_temperatures := { channel1 := none, channel2 := none }
        is_running := true
        threads_spawned := st.threads_spawned + 1 }

/-- `TemperatureStation.stop_detection`: clear the running flag, join the
thread (no state change), disconnect the real sensor if present. -/
def stop_detection (st : Station) : Station :=
  { st with
      is_running := false
      real_sensor := st.real_sensor.map Sensor.disconnect }

/-- `TemperatureStation._get_simulated_temperatures`, with the two
`random.uniform` draws supplied as inputs `u1 ∈ [-5, 8]`, `u2 ∈ [-4, 7]`. -/
def get_simulated_temperatures (u1 u2 : ℚ) : ℚ × ℚ :=
  (5 + u1, 24 + u2)

/-- The inputs consumed by one iteration of `_detection_loop`: the Modbus
environment for this second, the two uniform draws (used only if the
simulated generator runs), and the `datetime.now()` capture. -/
structure CycleInput where
  env : ModbusEnv
  u1 : ℚ
  u2 : ℚ
  now : Datetime

/-- The body of one iteration of `TemperatureStation._detection_loop`:
read (hardware with failover to simulation, or simulation), then, when both
channels are present, round to 2 decimals, update `current_temperatures`,
append a `Reading` and evict the oldest entry while the history exceeds
100 entries (`pop(0)`). -/
def detection_cycle (inp : CycleInput) (st : Station) : Station :=
  let read : Station × (Option ℚ × Option ℚ) :=
    match st.use_real_sensor, st.real_sensor with
    | true, some sen =>
        let ra := read_all_temperatures inp.env 0 sen
        let sen1 := ra.sensor
        let err :=
          if (Sensor.get_status sen1).is_connected then none
          else (Sensor.get_status sen1).last_error
        let st1 := { st with real_sensor := some sen1,
                             sensor_connection_error := err }
        if ra.channel1 = none ∨ ra.channel2 = none then
          let sim := get_simulated_temperatures inp.u1 inp.u2
          (st1, (some sim.1, some sim.2))
        else
          (st1, (ra.channel1, ra.channel2))
    | _, _ =>
        let sim := get_simulated_temperatures inp.u1 inp.u2
        (st, (some sim.1, some sim.2))
  match read with
  | (st1, (some t1, some t2)) =>
      let c1 := round2 t1
      let c2 := round2 t2
      let hist0 := st1.temperature_history ++
        [{ timestamp := inp.now, channel1_temperature := c1,
           channel2_temperature := c2 }]
      let hist := if 100 < hist0.length then hist0.tail else hist0
      { st1 with
          current_temperatures := { channel1 := some c1, channel2 := some c2 }
          temperature_history := hist }
  | (st1, _) => st1

/-- Run the detection loop for a sequence of polling cycles. -/
def run_cycles (inputs : List CycleInput) (st : Station) : Station :=
  inputs.foldl (fun s inp => detection_cycle inp s) st

/-- `TemperatureStation.get_current_temperatures` (a defensive copy of the
dict; copying is identity in the value model). -/
def get_current_temperatures (st : Station) : CurrentTemps :=
  st.current_temperatures

/-- `TemperatureStation.get_temperature_history` (a defensive copy of the
list; copying is identity in the value model). -/
def get_temperature_history (st : Station) : List Reading :=
  st.temperature_history

/-- The dict returned by `TemperatureStation.get_status`.  Entries that are
`None` in some code path are `Option`s; a Python bool `b` is `some b`. -/
structure Status where
  station_id : ℤ
  name : String
  is_running : Bool
  current_temperatures : CurrentTemps
  readings_count : ℕ
  threshold_difference : ℚ
  current_difference : Option ℚ
  is_abnormal : Option Bool
  use_real_sensor : Bool
  sensor_connected : Option Bool
  sensor_error : Option String
deriving DecidableEq

/-- `TemperatureStation.get_status`.  `is_abnormal` starts as the bool
`False` and is replaced by `diff < threshold` only when both channels are
present; `temperature_difference` starts as `None`.  `sensor_connected` is
`sensor_status.get('is_connected', False)` when `use_real_sensor` else
`None`. -/
def Station.get_status (st : Station) : Status :=
  let ct := get_current_temperatures st
  let dif : Option ℚ :=
    match ct.channel1, ct.channel2 with
    | some a, some b => some (b - a)
    | _, _ => none
  let abn : Option Bool :=
    match ct.channel1, ct.channel2 with
    | some a, some b => some (decide (b - a < st.threshold_difference))
    | _, _ => some false
  { station_id := st.station_id
    name := st.name
    is_running := st.is_running
    current_temperatures := ct
    readings_count := st.temperature_history.length
    threshold_difference := st.threshold_difference
    current_difference := dif
    is_abnormal := abn
    use_real_sensor := st.use_real_sensor
    sensor_connected :=
      if st.use_real_sensor then
        some (match st.real_sensor with
              | some sen => (Sensor.get_status sen).is_connected
              | none => false)
      else none
    sensor_error := st.sensor_connection_error }

/-- The CSV header row written by `export_to_csv`. -/
def CSV_HEADER : List String :=
  ["Timestamp", "Channel1_Temperature_Celsius", "Channel2_Temperature_Celsius",
   "Station_Name", "Station_ID"]

/-- Python's `str()` of a float whose value is `c / 100` for an integer `c`
(every stored temperature is `round(x, 2)`): the shortest decimal form —
trailing zeros of the fraction are not printed, but at least one fractional
digit always is (`15.0`, `9.9`, `9.99`, `-0.5`). -/
def formatCenti (c : ℤ) : String :=
  let sign := if c < 0 then "-" else ""
  let a := c.natAbs
  let ip := a / 100
  let fr := a % 100
  if fr = 0 then sign ++ toString ip ++ ".0"
  else if fr % 10 = 0 then sign ++ toString ip ++ "." ++ toString (fr / 10)
  else if fr < 10 then sign ++ toString ip ++ ".0" ++ toString fr
  else sign ++ toString ip ++ "." ++ toString fr

/-- The CSV cell `csv.writer` produces for a stored temperature (Python
`str(float)`); exact for the 2-decimal-rounded values the program stores. -/
def pyFloatCell (q : ℚ) : String := formatCenti (q * 100).num

/-- Modelled from the spec: a fixed two-decimal rendering of `c / 100`
(`15.00`, `9.90`), the format the spec asserts for CSV temperature cells.
Used only to compare against what the code writes. -/
def twoDecimalCenti (c : ℤ) : String :=
  let sign := if c < 0 then "-" else ""
  let a := c.natAbs
  let ip := a / 100
  let fr := a % 100
  sign ++ toString ip ++ "." ++ (if fr < 10 then "0" ++ toString fr else toString fr)

/-- `TemperatureStation.export_to_csv`, at the level of rows and cells:
the header row, then one row per retained reading in insertion order. -/
def export_to_csv (st : Station) : List (List String) :=
  CSV_HEADER ::
    st.temperature_history.map (fun r =>
      [r.timestamp.strftimeYmdHMS,
       pyFloatCell r.channel1_temperature,
       pyFloatCell r.channel2_temperature,
       st.name,
       toString st.station_id])

end TempDetect

namespace TempDetect

/-! ### Helper lemmas -/

/-- Every polling cycle appends exactly one reading (hardware failures fail
over to simulation, and the simulated generator is total), then evicts the
head while the length exceeds 100. -/
theorem detection_cycle_history_shape (inp : CycleInput) (st : Station) :
    ∃ r : Reading,
      (detection_cycle inp st).temperature_history =
        (if 100 < (st.temperature_history ++ [r]).length
         then (st.temperature_history ++ [r]).tail
         else st.temperature_history ++ [r]) := by
  unfold detection_cycle
  cases hu : st.use_real_sensor <;> cases hs : st.real_sensor
  case false.none | false.some | true.none =>
    exact ⟨{ timestamp := inp.now,
             channel1_temperature := round2 (get_simulated_temperatures inp.u1 inp.u2).1,
             channel2_temperature := round2 (get_simulated_temperatures inp.u1 inp.u2).2 },
           by simp⟩
  case true.some sen =>
    by_cases hf : (read_all_temperatures inp.env 0 sen).channel1 = none ∨
        (read_all_temperatures inp.env 0 sen).channel2 = none
    · exact ⟨{ timestamp := inp.now,
               channel1_temperature := round2 (get_simulated_temperatures inp.u1 inp.u2).1,
               channel2_temperature := round2 (get_simulated_temperatures inp.u1 inp.u2).2 },
             by simp [hf]⟩
    · push_neg at hf
      obtain ⟨h1, h2⟩ := hf
      obtain ⟨a, ha⟩ := Option.ne_none_iff_exists'.mp h1
      obtain ⟨b, hb⟩ := Option.ne_none_iff_exists'.mp h2
      refine ⟨{ timestamp := inp.now, channel1_temperature := round2 a,
                channel2_temperature := round2 b }, ?_⟩
      simp [ha, hb]

/-- One polling cycle keeps the history within the 100-entry cap. -/
theorem detection_cycle_length_le (inp : CycleInput) (st : Station)
    (h : st.temperature_history.length ≤ 100) :
    (detection_cycle inp st).temperature_history.length ≤ 100 := by
  obtain ⟨r, hr⟩ := detection_cycle_history_shape inp st
  rw [hr]
  split
  · simp [List.length_tail]
    omega
  · rename_i hle
    simp at hle ⊢
    omega

/-- `run_cycles` unfolds one step at a time. -/
theorem run_cycles_cons (inp : CycleInput) (inputs : List CycleInput)
    (st : Station) :
    run_cycles (inp :: inputs) st = run_cycles inputs (detection_cycle inp st) := by
  simp [run_cycles]

/-! ### Concrete objects used to instantiate the theorems -/

/-- A fixed capture instant. -/
def dt0 : Datetime := ⟨2024, 1, 2, 3, 4, 5⟩

/-- A Modbus world in which everything succeeds. -/
def envOk : ModbusEnv :=
  { connect := fun _ => Except.ok (), readReg := fun _ _ => Except.ok 5 }

/-- A Modbus world in which opening the serial port always raises. -/
def envDown : ModbusEnv :=
  { connect := fun _ => Except.error "serial open failed"
    readReg := fun _ _ => Except.ok 5 }

/-- A polling-cycle input with zero uniform draws. -/
def inpSim : CycleInput := { env := envOk, u1 := 0, u2 := 0, now := dt0 }

/-- A freshly constructed simulated-source station. -/
def stEmpty : Station := Station.init envOk 1 "Station 1" 10 false "COM4"

/-- A sample retained reading (temperatures already 2-decimal rounded). -/
def r0 : Reading :=
  { timestamp := dt0, channel1_temperature := 5, channel2_temperature := 49/2 }

/-- A station whose history is at the 100-entry cap. -/
def st100 : Station := { stEmpty with temperature_history := List.replicate 100 r0 }

/-! ### Claims -/

/-- C1: for every sequence of polling-cycle appends starting within the cap,
the history length stays at most 100 after any mutation, and a cycle run at
the cap drops exactly the oldest entry (strict FIFO), preserving the
insertion order of the remaining entries and appending the new reading at
the end. -/
theorem C1_history_cap_and_fifo (inputs : List CycleInput) (st : Station)
    (hst : st.temperature_history.length ≤ 100) :
    (run_cycles inputs st).temperature_history.length ≤ 100 ∧
    (∀ inp s, s.temperature_history.length = 100 →
      ∃ r : Reading,
        (detection_cycle inp s).temperature_history =
          s.temperature_history.tail ++ [r]) := by
  constructor
  · induction inputs generalizing st with
    | nil => simpa [run_cycles] using hst
    | cons i is ih =>
        rw [run_cycles_cons]
        exact ih _ (detection_cycle_length_le i st hst)
  · intro inp s hs
    obtain ⟨r, hr⟩ := detection_cycle_history_shape inp s
    refine ⟨r, ?_⟩
    rw [hr, if_pos (by simp [hs])]
    cases hl : s.temperature_history with
    | nil => rw [hl] at hs; simp at hs
    | cons a t => simp

/-- Witness for C1 at a concrete station sitting at the cap. -/
theorem C1_history_cap_and_fifo_witness :
    st100.temperature_history.length = 100 ∧
    (run_cycles [inpSim] st100).temperature_history.length ≤ 100 ∧
    (∃ r : Reading,
      (detection_cycle inpSim st100).temperature_history =
        st100.temperature_history.tail ++ [r]) := by
  have h100 : st100.temperature_history.length = 100 := by
    simp [st100, stEmpty, Station.init]
  exact ⟨h100, (C1_history_cap_and_fifo [inpSim] st100 (le_of_eq h100)).1,
    (C1_history_cap_and_fifo [] st100 (le_of_eq h100)).2 inpSim st100 h100⟩

/-- A station state with both current channels present, at the spec's first
example point: threshold 10.0, channel1 = 5.00, channel2 = 14.99. -/
def stC2a : Station :=
  { stEmpty with current_temperatures := { channel1 := some 5, channel2 := some (1499/100) } }

/-- The spec's second example point: channel1 = 5.00, channel2 = 15.00. -/
def stC2b : Station :=
  { stEmpty with current_temperatures := { channel1 := some 5, channel2 := some 15 } }

/-- C2: with both current channel temperatures present, `get_status` reports
`is_abnormal` true iff `channel2 - channel1 < threshold_difference`
(equality counts as normal), and at threshold 10.0 the pair (5.00, 14.99)
is abnormal while (5.00, 15.00) is normal. -/
theorem C2_abnormal_iff_below_threshold (st : Station) (c1 c2 : ℚ)
    (h : st.current_temperatures = { channel1 := some c1, channel2 := some c2 }) :
    (((Station.get_status st).is_abnormal = some true) ↔
        c2 - c1 < st.threshold_difference) ∧
    (((Station.get_status st).is_abnormal = some false) ↔
        st.threshold_difference ≤ c2 - c1) ∧
    (Station.get_status stC2a).is_abnormal = some true ∧
    (Station.get_status stC2b).is_abnormal = some false := by
  refine ⟨?_, ?_, ?_, ?_⟩
  · simp [Station.get_status, get_current_temperatures, h]
  · simp [Station.get_status, get_current_temperatures, h, not_lt]
  · simp [Station.get_status, get_current_temperatures, stC2a, stEmpty, Station.init]
    norm_num
  · simp [Station.get_status, get_current_temperatures, stC2b, stEmpty, Station.init]
    norm_num

/-- Witness for C2 at the concrete example state. -/
theorem C2_abnormal_iff_below_threshold_witness :
    stC2a.current_temperatures = { channel1 := some 5, channel2 := some (1499/100) } ∧
    (((Station.get_status stC2a).is_abnormal = some true) ↔
        (1499/100 : ℚ) - 5 < stC2a.threshold_difference) :=
  ⟨rfl, (C2_abnormal_iff_below_threshold stC2a 5 (1499/100) rfl).1⟩

/-- A station state in which channel 1 is absent. -/
def stC5 : Station :=
  { stEmpty with current_temperatures := { channel1 := none, channel2 := some 20 } }

/-- C5 counterexample: with channel 1 absent, `get_status` does return a
null difference, but the abnormal flag is the boolean `False`, not null,
contradicting the claim that both are null. -/
theorem C5_counterexample :
    (Station.get_status stC5).current_difference = none ∧
    (Station.get_status stC5).is_abnormal = some false ∧
    ¬ ((Station.get_status stC5).is_abnormal = none) := by
  refine ⟨?_, ?_, ?_⟩ <;>
    simp [Station.get_status, get_current_temperatures, stC5, stEmpty, Station.init]

/-- C5 amended: with at least one current channel absent, `get_status`
returns a null current difference, while the abnormal flag keeps its
initialised boolean value `False` (it is not null). -/
theorem C5_absent_channel_null_difference (st : Station)
    (h : st.current_temperatures.channel1 = none ∨
         st.current_temperatures.channel2 = none) :
    (Station.get_status st).current_difference = none ∧
    (Station.get_status st).is_abnormal = some false := by
  cases h1 : st.current_temperatures.channel1 <;>
    cases h2 : st.current_temperatures.channel2 <;>
      simp [h1, h2] at h ⊢ <;>
        simp [Station.get_status, get_current_temperatures, h1, h2]

/-- Witness for the amended C5 at the concrete state. -/
theorem C5_absent_channel_null_difference_witness :
    stC5.current_temperatures.channel1 = none ∧
    (Station.get_status stC5).current_difference = none ∧
    (Station.get_status stC5).is_abnormal = some false :=
  ⟨rfl, (C5_absent_channel_null_difference stC5 (Or.inl rfl)).1,
    (C5_absent_channel_null_difference stC5 (Or.inl rfl)).2⟩

/-- A retained reading whose rounded temperatures are 15.0 and 24.5 (both
reachable as `round(x, 2)` outputs). -/
def rC4 : Reading :=
  { timestamp := dt0, channel1_temperature := 15, channel2_temperature := 49/2 }

/-- A station holding the single retained reading `rC4`. -/
def stC4 : Station :=
  { station_id := 7
    name := "A"
    threshold_difference := 10
    use_real_sensor := false
    is_running := false
    threads_spawned := 0
    current_temperatures := { channel1 := none, channel2 := none }
    temperature_history := [rC4]
    real_sensor := none
    sensor_connection_error := none }

/-- C4 counterexample: the export writes the stored floats with Python's
`str` (shortest form), so the reading (15.0, 24.5) yields the cells
`"15.0"` and `"24.5"`, not the two-decimal `"15.00"` / `"24.50"` the claim
asserts. -/
theorem C4_counterexample :
    export_to_csv stC4 =
      [CSV_HEADER, ["2024-01-02 03:04:05", "15.0", "24.5", "A", "7"]] ∧
    twoDecimalCenti 1500 = "15.00" ∧
    twoDecimalCenti 2450 = "24.50" ∧
    ("15.0" : String) ≠ "15.00" ∧
    ("24.5" : String) ≠ "24.50" := by
  have h1 : ((15:ℚ) * 100).num = 1500 := by norm_num
  have h2 : ((49/2:ℚ) * 100).num = 2450 := by norm_num
  refine ⟨?_, by decide, by decide, by decide, by decide⟩
  simp [export_to_csv, stC4, rC4, pyFloatCell, h1, h2]
  decide

/-- C4 amended: exporting an empty history yields exactly the header row;
exporting N readings yields the header plus N rows in insertion order, each
row holding the `YYYY-MM-DD HH:MM:SS` timestamp, the two stored temperatures
written in Python's shortest float form (at most two decimals, trailing
zeros dropped, at least one fractional digit — identical to the two-decimal
format exactly when the hundredths digit is nonzero), then the station name
and id. -/
theorem C4_export_rows (st : Station) :
    (st.temperature_history = [] → export_to_csv st = [CSV_HEADER]) ∧
    (export_to_csv st).length = st.temperature_history.length + 1 ∧
    (export_to_csv st).head? = some CSV_HEADER ∧
    (∀ i r, st.temperature_history[i]? = some r →
      (export_to_csv st)[i + 1]? =
        some [r.timestamp.strftimeYmdHMS,
              pyFloatCell r.channel1_temperature,
              pyFloatCell r.channel2_temperature,
              st.name,
              toString st.station_id]) ∧
    (∀ c : ℤ, c.natAbs % 100 % 10 ≠ 0 → formatCenti c = twoDecimalCenti c) := by
  refine ⟨?_, ?_, ?_, ?_, ?_⟩
  · intro h; simp [export_to_csv, h]
  · simp [export_to_csv]
  · simp [export_to_csv]
  · intro i r hr
    simp [export_to_csv, hr]
  · intro c hc
    unfold formatCenti twoDecimalCenti
    dsimp only
    have hfr0 : ¬ (c.natAbs % 100 = 0) := by
      intro h0; exact hc (by rw [h0])
    rw [if_neg hfr0, if_neg hc]
    by_cases hlt : c.natAbs % 100 < 10
    · rw [if_pos hlt, if_pos hlt]
      have hdot : ("." : String) ++ "0" = ".0" := by decide
      have hsplit : ∀ t : String, ".0" ++ t = "." ++ ("0" ++ t) := by
        intro t; rw [← String.append_assoc, hdot]
      simp [String.append_assoc, hsplit]
    · rw [if_neg hlt, if_neg hlt]

/-- Witness for the amended C4 at concrete stations. -/
theorem C4_export_rows_witness :
    stEmpty.temperature_history = [] ∧
    export_to_csv stEmpty = [CSV_HEADER] ∧
    stC4.temperature_history[0]? = some rC4 ∧
    (export_to_csv stC4)[1]? =
      some [rC4.timestamp.strftimeYmdHMS,
            pyFloatCell rC4.channel1_temperature,
            pyFloatCell rC4.channel2_temperature,
            stC4.name,
            toString stC4.station_id] ∧
    (1499:ℤ).natAbs % 100 % 10 ≠ 0 ∧
    formatCenti 1499 = twoDecimalCenti 1499 := by
  have hr : stC4.temperature_history[0]? = some rC4 := by simp [stC4]
  refine ⟨rfl, (C4_export_rows stEmpty).1 rfl, hr, ?_, by decide, ?_⟩
  · exact (C4_export_rows stC4).2.2.2.1 0 rC4 hr
  · exact (C4_export_rows stC4).2.2.2.2 1499 (by decide)

/-- C6: for any draws within the `uniform` bounds, the simulated channel 1
value lies in [0, 13] and the simulated channel 2 value lies in [20, 31];
moreover on any simulated-source cycle both current temperatures are updated
to present values (the simulated read never fails). -/
theorem C6_simulated_ranges (u1 u2 : ℚ)
    (h1 : -5 ≤ u1) (h2 : u1 ≤ 8) (h3 : -4 ≤ u2) (h4 : u2 ≤ 7) :
    (0 ≤ (get_simulated_temperatures u1 u2).1 ∧
      (get_simulated_temperatures u1 u2).1 ≤ 13) ∧
    (20 ≤ (get_simulated_temperatures u1 u2).2 ∧
      (get_simulated_temperatures u1 u2).2 ≤ 31) ∧
    (∀ inp st, st.use_real_sensor = false →
      (detection_cycle inp st).current_temperatures =
        { channel1 := some (round2 (get_simulated_temperatures inp.u1 inp.u2).1)
          channel2 := some (round2 (get_simulated_temperatures inp.u1 inp.u2).2) }) := by
  refine ⟨⟨?_, ?_⟩, ⟨?_, ?_⟩, ?_⟩
  · simp only [get_simulated_temperatures]; linarith
  · simp only [get_simulated_temperatures]; linarith
  · simp only [get_simulated_temperatures]; linarith
  · simp only [get_simulated_temperatures]; linarith
  · intro inp st hu
    unfold detection_cycle
    cases hs : st.real_sensor <;> simp [hu]

/-- Witness for C6 at the zero draws. -/
theorem C6_simulated_ranges_witness :
    ((-5:ℚ) ≤ 0 ∧ (0:ℚ) ≤ 8 ∧ (-4:ℚ) ≤ 0 ∧ (0:ℚ) ≤ 7) ∧
    (0 ≤ (get_simulated_temperatures 0 0).1 ∧
      (get_simulated_temperatures 0 0).1 ≤ 13) ∧
    (20 ≤ (get_simulated_temperatures 0 0).2 ∧
      (get_simulated_temperatures 0 0).2 ≤ 31) := by
  have h := C6_simulated_ranges 0 0 (by norm_num) (by norm_num) (by norm_num)
    (by norm_num)
  exact ⟨⟨by norm_num, by norm_num, by norm_num, by norm_num⟩, h.1, h.2.1⟩

/-- C7: starting a stopped station clears the history and resets both
current temperatures before polling begins, so `get_temperature_history`
is empty immediately after `start_detection`. -/
theorem C7_start_clears_history (st : Station) (h : st.is_running = false) :
    (start_detection st).temperature_history = [] ∧
    (start_detection st).current_temperatures =
      { channel1 := none, channel2 := none } ∧
    get_temperature_history (start_detection st) = [] ∧
    (start_detection st).is_running = true := by
  simp [start_detection, get_temperature_history, h]

/-- Witness for C7 at a concrete stopped station with prior history. -/
theorem C7_start_clears_history_witness :
    stC4.is_running = false ∧
    get_temperature_history (start_detection stC4) = [] ∧
    (start_detection stC4).is_running = true :=
  ⟨rfl, (C7_start_clears_history stC4 rfl).2.2.1,
    (C7_start_clears_history stC4 rfl).2.2.2⟩

/-- A station that is already running. -/
def stRunning : Station := { stC4 with is_running := true }

/-- C8: starting an already-running station is a complete no-op: the state
is unchanged, in particular no second polling thread is spawned and the
history, current temperatures and running flag are untouched. -/
theorem C8_start_running_noop (st : Station) (h : st.is_running = true) :
    start_detection st = st ∧
    (start_detection st).threads_spawned = st.threads_spawned ∧
    (start_detection st).temperature_history = st.temperature_history ∧
    (start_detection st).current_temperatures = st.current_temperatures ∧
    (start_detection st).is_running = st.is_running := by
  simp [start_detection, h]

/-- Witness for C8 at a concrete running station. -/
theorem C8_start_running_noop_witness :
    stRunning.is_running = true ∧ start_detection stRunning = stRunning :=
  ⟨rfl, (C8_start_running_noop stRunning rfl).1⟩

/-- C10: stopping a station leaves the history and current temperatures
unchanged (it only clears the running flag and disconnects the sensor);
history and export stay readable after the stop, and the history is only
discarded at the next `start_detection`. -/
theorem C10_stop_preserves_history (st : Station) :
    (stop_detection st).temperature_history = st.temperature_history ∧
    (stop_detection st).current_temperatures = st.current_temperatures ∧
    get_temperature_history (stop_detection st) = get_temperature_history st ∧
    export_to_csv (stop_detection st) = export_to_csv st ∧
    (stop_detection st).is_running = false ∧
    (start_detection (stop_detection st)).temperature_history = [] := by
  refine ⟨rfl, rfl, rfl, rfl, rfl, ?_⟩
  simp [start_detection, stop_detection]

/-- A failed `setup_sensor` leaves the sensor disconnected with the raised
message recorded. -/
theorem setup_sensor_fail_state (env : ModbusEnv) (t : ℕ) (s : Sensor)
    (h : (setup_sensor env t s).ok = false) :
    (setup_sensor env t s).sensor.is_connected = false ∧
    ∃ e, (setup_sensor env t s).sensor.last_error = some e := by
  unfold setup_sensor at h ⊢
  rcases henv : env.connect t with e | u
  · exact ⟨rfl, e, rfl⟩
  · rcases hr : env.readReg (t + 1) 0 with e | v
    · exact ⟨rfl, e, rfl⟩
    · rw [henv, hr] at h
      simp at h

/-- A failed register read inside the `try` body marks the sensor
disconnected and records the message. -/
theorem readAttempt_fail_state (env : ModbusEnv) (t : ℕ) (s : Sensor) (ch : ℕ)
    (h : (readAttempt env t s ch).value = none) :
    (readAttempt env t s ch).sensor.is_connected = false ∧
    ∃ e, (readAttempt env t s ch).sensor.last_error = some e := by
  simp only [readAttempt] at h ⊢
  rcases hr : env.readReg t (ch - 1) with e | v
  · exact ⟨rfl, e, rfl⟩
  · rw [hr] at h
    simp at h

/-- Whenever `read_temperature` returns `None`, the resulting sensor state
is disconnected and carries an error message. -/
theorem read_temperature_fail_state (env : ModbusEnv) (t : ℕ) (s : Sensor)
    (ch : ℕ) (h : (read_temperature env t s ch).value = none) :
    (read_temperature env t s ch).sensor.is_connected = false ∧
    ∃ e, (read_temperature env t s ch).sensor.last_error = some e := by
  simp only [read_temperature] at h ⊢
  by_cases hcond : s.is_connected = false ∨ s.instrument = false
  · rw [if_pos hcond] at h ⊢
    by_cases hok : (setup_sensor env t s).ok = true
    · rw [if_pos hok] at h ⊢
      exact readAttempt_fail_state env _ _ ch h
    · rw [if_neg hok] at h ⊢
      have hfs := setup_sensor_fail_state env t s (by simpa using hok)
      simpa using hfs
  · rw [if_neg hcond] at h ⊢
    exact readAttempt_fail_state env t s ch h

/-- The reading a cycle appends when the simulated values are used. -/
def simReading (inp : CycleInput) : Reading :=
  { timestamp := inp.now
    channel1_temperature := round2 (get_simulated_temperatures inp.u1 inp.u2).1
    channel2_temperature := round2 (get_simulated_temperatures inp.u1 inp.u2).2 }

/-- A Modbus world with a single transient failure: the cycle's first
primitive call (here the channel-1 register read of a connected sensor)
raises, and every later call succeeds. -/
def envTransient : ModbusEnv :=
  { connect := fun _ => Except.ok ()
    readReg := fun k _ =>
      if k = 0 then Except.error "transient read failure" else Except.ok 7 }

/-- The connected sensor a hardware station holds after a successful setup
at construction. -/
def senOk : Sensor := (setup_sensor envOk 0 (Sensor.init "COM4" 1 9600 1)).sensor

/-- A hardware-backed station whose sensor connected at construction. -/
def stUp : Station := Station.init envOk 3 "C" 10 true "COM4"

/-- The cycle input carrying the transient-failure world. -/
def inpTransient : CycleInput :=
  { env := envTransient, u1 := 0, u2 := 0, now := dt0 }

/-- C3 counterexample: a transient channel-1 failure whose in-cycle
reconnect succeeds.  `read_all_temperatures` leaves channel 1 absent, so
the cycle substitutes simulated values and appends a reading — but the
channel-2 call re-ran `setup_sensor` successfully, so `get_status` reports
`sensor_connected = true` and a null `sensor_error`: the failure is masked
for this cycle, falsifying the claim that every failed hardware cycle
reports `sensor_connected = false` with the captured error. -/
theorem C3_counterexample :
    stUp.use_real_sensor = true ∧
    stUp.real_sensor = some senOk ∧
    (read_all_temperatures envTransient 0 senOk).channel1 = none ∧
    (detection_cycle inpTransient stUp).temperature_history =
      [simReading inpTransient] ∧
    (Station.get_status (detection_cycle inpTransient stUp)).sensor_connected =
      some true ∧
    (Station.get_status (detection_cycle inpTransient stUp)).sensor_error =
      none := by
  refine ⟨rfl, rfl, rfl, ?_, ?_, ?_⟩ <;>
    simp [detection_cycle, read_all_temperatures, read_temperature, readAttempt,
      setup_sensor, envTransient, stUp, senOk, inpTransient, Station.init,
      Sensor.init, Station.get_status, Sensor.get_status,
      get_current_temperatures, simReading, get_simulated_temperatures, envOk]

/-- C3 amended: on a hardware-backed cycle in which `read_all_temperatures`
leaves either channel absent, the station substitutes the simulated values,
still rounds and appends a reading (evicting at the cap); `get_status` then
reports the sensor's post-read connection state, with the captured error
message exactly when that state is disconnected.  A channel-2 failure is
always reported this way; only a transient channel-1 failure whose in-cycle
reconnect succeeds is masked. -/
theorem C3_failover_and_status (inp : CycleInput) (st : Station) (sen : Sensor)
    (hu : st.use_real_sensor = true) (hs : st.real_sensor = some sen)
    (hfail : (read_all_temperatures inp.env 0 sen).channel1 = none ∨
             (read_all_temperatures inp.env 0 sen).channel2 = none) :
    (detection_cycle inp st).temperature_history =
      (if 100 < (st.temperature_history ++ [simReading inp]).length
       then (st.temperature_history ++ [simReading inp]).tail
       else st.temperature_history ++ [simReading inp]) ∧
    (detection_cycle inp st).current_temperatures =
      { channel1 := some (round2 (get_simulated_temperatures inp.u1 inp.u2).1)
        channel2 := some (round2 (get_simulated_temperatures inp.u1 inp.u2).2) } ∧
    (Station.get_status (detection_cycle inp st)).sensor_connected =
      some (read_all_temperatures inp.env 0 sen).sensor.is_connected ∧
    (Station.get_status (detection_cycle inp st)).sensor_error =
      (if (read_all_temperatures inp.env 0 sen).sensor.is_connected then none
       else (read_all_temperatures inp.env 0 sen).sensor.last_error) ∧
    ((read_all_temperatures inp.env 0 sen).channel2 = none →
      (Station.get_status (detection_cycle inp st)).sensor_connected =
        some false ∧
      ∃ e, (Station.get_status (detection_cycle inp st)).sensor_error =
        some e) := by
  have h3 : (Station.get_status (detection_cycle inp st)).sensor_connected =
      some (read_all_temperatures inp.env 0 sen).sensor.is_connected := by
    simp [detection_cycle, hu, hs, hfail, Station.get_status,
      get_current_temperatures, Sensor.get_status]
  have h4 : (Station.get_status (detection_cycle inp st)).sensor_error =
      (if (read_all_temperatures inp.env 0 sen).sensor.is_connected then none
       else (read_all_temperatures inp.env 0 sen).sensor.last_error) := by
    simp [detection_cycle, hu, hs, hfail, Station.get_status,
      get_current_temperatures, Sensor.get_status]
  refine ⟨?_, ?_, h3, h4, ?_⟩
  · simp [detection_cycle, hu, hs, hfail, simReading]
  · simp [detection_cycle, hu, hs, hfail]
  · intro h2
    have hv2 : (read_temperature inp.env (read_temperature inp.env 0 sen 1).clock
        (read_temperature inp.env 0 sen 1).sensor 2).value = none := by
      simpa [read_all_temperatures] using h2
    obtain ⟨hc2, e, he2⟩ := read_temperature_fail_state inp.env _ _ 2 hv2
    have hc2' :
        (read_all_temperatures inp.env 0 sen).sensor.is_connected = false := by
      simpa [read_all_temperatures] using hc2
    have he2' :
        (read_all_temperatures inp.env 0 sen).sensor.last_error = some e := by
      simpa [read_all_temperatures] using he2
    refine ⟨by rw [h3, hc2'], e, ?_⟩
    rw [h4, hc2']
    simpa using he2'

/-- A hardware-backed station whose sensor failed to set up at
construction. -/
def stHw : Station := Station.init envDown 2 "B" 10 true "COM4"

/-- The sensor state held by `stHw`. -/
def senHw : Sensor := (setup_sensor envDown 0 (Sensor.init "COM4" 1 9600 1)).sensor

/-- The cycle input whose Modbus world is down for the whole cycle. -/
def inpDown : CycleInput := { env := envDown, u1 := 0, u2 := 0, now := dt0 }

/-- Witness for the amended C3 at a concrete station with a down serial
port: both channels absent, and the failure is reported. -/
theorem C3_failover_and_status_witness :
    stHw.use_real_sensor = true ∧
    stHw.real_sensor = some senHw ∧
    (read_all_temperatures envDown 0 senHw).channel1 = none ∧
    (read_all_temperatures envDown 0 senHw).channel2 = none ∧
    (Station.get_status (detection_cycle inpDown stHw)).sensor_connected =
      some false ∧
    ∃ e, (Station.get_status (detection_cycle inpDown stHw)).sensor_error =
      some e := by
  have h := C3_failover_and_status inpDown stHw senHw rfl rfl (Or.inl rfl)
  have h5 := h.2.2.2.2 rfl
  exact ⟨rfl, rfl, rfl, rfl, h5.1, h5.2⟩

/-- C9: on a connected sensor with an instrument in hand, at any call clock,
any raised error during the register read makes `read_temperature` return
`None` (rather than raising), mark the connection down (so the next call
attempts a reconnect, which succeeds in a healthy world) and record the
failure message in `last_error`; the register read for channel `n` uses
register address `n - 1`. -/
theorem C9_read_error_handling (env : ModbusEnv) (t : ℕ) (s : Sensor) (n : ℕ)
    (hc : s.is_connected = true) (hi : s.instrument = true) :
    (∀ e, env.readReg t (n - 1) = Except.error e →
      read_temperature env t s n =
        { clock := t + 1
          sensor := { s with is_connected := false, last_error := some e }
          value := none }) ∧
    (∀ v, env.readReg t (n - 1) = Except.ok v →
      read_temperature env t s n =
        { clock := t + 1, sensor := { s with last_error := none },
          value := some v }) ∧
    (∀ e v (env2 : ModbusEnv) (t2 : ℕ),
      env.readReg t (n - 1) = Except.error e →
      (∀ k, env2.connect k = Except.ok ()) →
      (∀ k a, env2.readReg k a = Except.ok v) →
      ∀ m, read_temperature env2 t2 (read_temperature env t s n).sensor m =
        { clock := t2 + 3
          sensor := { s with is_connected := true, instrument := true,
                             last_error := none }
          value := some v }) := by
  refine ⟨?_, ?_, ?_⟩
  · intro e he
    simp [read_temperature, readAttempt, hc, hi, he]
  · intro v hv
    simp [read_temperature, readAttempt, hc, hi, hv]
  · intro e v env2 t2 he hco hall m
    have h1 : (read_temperature env t s n).sensor =
        { s with is_connected := false, last_error := some e } := by
      simp [read_temperature, readAttempt, hc, hi, he]
    rw [h1]
    simp [read_temperature, setup_sensor, readAttempt, hco, hall]

/-- A Modbus world in which the port opens but every register read raises. -/
def envReadFail : ModbusEnv :=
  { connect := fun _ => Except.ok ()
    readReg := fun _ _ => Except.error "read timed out" }

/-- A connected sensor with an instrument in hand. -/
def senUp : Sensor :=
  { Sensor.init "COM4" 1 9600 1 with instrument := true, is_connected := true }

/-- Witness for C9 at channel 2 (register address 1). -/
theorem C9_read_error_handling_witness :
    senUp.is_connected = true ∧ senUp.instrument = true ∧
    envReadFail.readReg 0 (2 - 1) = Except.error "read timed out" ∧
    read_temperature envReadFail 0 senUp 2 =
      { clock := 1
        sensor := { senUp with is_connected := false,
                               last_error := some "read timed out" }
        value := none } ∧
    read_temperature envOk 0 (read_temperature envReadFail 0 senUp 2).sensor 1 =
      { clock := 3
        sensor := { senUp with is_connected := true, instrument := true,
                               last_error := none }
        value := some 5 } := by
  have h := C9_read_error_handling envReadFail 0 senUp 2 rfl rfl
  exact ⟨rfl, rfl, rfl, h.1 "read timed out" rfl,
    h.2.2 "read timed out" 5 envOk 0 rfl (fun _ => rfl) (fun _ _ => rfl) 1⟩

end TempDetect
